import Mathlib

/-!
Shallow embedding of the momentum-scoring and confidence-classification
engine of the crypto-dashboard repository (lib/momentum.js), together with
theorems settling the specification claims about it.

JS numbers are modelled as exact rationals (ℚ); JS objects are modelled as
string-keyed association lists whose values may be `null` (`some none`) or
absent (`none`).
-/

namespace CryptoDashboard

/-- A market record as the engine sees it: a JS object, i.e. a string-keyed
map. A key maps to a number (`some v`) or to `null` (`none`); a key can also
be absent from the list entirely. -/
abbrev Coin := List (String × Option ℚ)

/-- `clamp(n, min, max)` from lib/momentum.js:
`Math.max(min, Math.min(max, n))`. -/
def clamp (n mn mx : ℚ) : ℚ := max mn (min mx n)

/-- Property access `coin[key]` on a JS object: `some (some v)` when the key
holds a number, `some none` when it holds `null`, `none` when absent. -/
def lookupField (coin : Coin) (key : String) : Option (Option ℚ) :=
  (coin.find? (fun p => p.1 == key)).map Prod.snd

/-- `Number(coin[key] ?? 0)` from the source: an absent or `null` field is
treated as exactly `0`. -/
def fieldOr0 (coin : Coin) (key : String) : ℚ :=
  match lookupField coin key with
  | some (some v) => v
  | _ => 0

/-- Rendering of `x.toFixed(2)` (ECMA-262): the sign of a negative number is
emitted first, then the absolute value is rounded to the nearest multiple of
1/100 (ties toward the larger integer) and printed with exactly two
zero-padded fractional digits. -/
def toFixed2 (q : ℚ) : String :=
  let n : ℕ := (round (|q| * 100)).toNat
  (if q < 0 then "-" else "") ++
    Nat.repr (n / 100) ++ "." ++
      String.mk [Nat.digitChar (n % 100 / 10), Nat.digitChar (n % 100 % 10)]

/-- Rendering of `x.toFixed(1)` (ECMA-262), one fractional digit. -/
def toFixed1 (q : ℚ) : String :=
  let n : ℕ := (round (|q| * 10)).toNat
  (if q < 0 then "-" else "") ++
    Nat.repr (n / 10) ++ "." ++ String.mk [Nat.digitChar (n % 10)]

/-- `formatPct` of lib/momentum.js on a numeric (non-null, non-NaN)
argument: `` `${sign}${num.toFixed(2)}%` `` with `sign = num > 0 ? "+" : ""`. -/
def formatPctNum (q : ℚ) : String :=
  (if 0 < q then "+" else "") ++ toFixed2 q ++ "%"

/-- `formatPct` of lib/momentum.js: `null`/`undefined` renders as an em
dash, a number via `formatPctNum`. -/
def formatPct (q : Option ℚ) : String :=
  match q with
  | none => "—"
  | some v => formatPctNum v

/-- The `inputs` snapshot returned by `computeMomentumBreakdown`. -/
structure MomentumInputs where
  c24 : ℚ
  c7 : ℚ
  c30 : ℚ
  volatilityProxy : ℚ
deriving DecidableEq, Repr

/-- The return value of `computeMomentumBreakdown`. -/
structure MomentumBreakdown where
  score : ℤ
  inputs : MomentumInputs
  drivers : List String
  whatWouldChange : List String
deriving DecidableEq, Repr

/-- `trendAligned` / `aligned` of lib/momentum.js:
`(c24 >= 0 && c7 >= 0) || (c24 <= 0 && c7 <= 0)` — the identical expression
appears in `computeMomentumBreakdown` and in `computeConfidence`. -/
abbrev trendAligned (c24 c7 : ℚ) : Prop :=
  (c24 ≥ 0 ∧ c7 ≥ 0) ∨ (c24 ≤ 0 ∧ c7 ≤ 0)

/-- `computeMomentumBreakdown(coin)` of lib/momentum.js. -/
def computeMomentumBreakdown (coin : Coin) : MomentumBreakdown :=
  let c24 := fieldOr0 coin "price_change_percentage_24h_in_currency"
  let c7 := fieldOr0 coin "price_change_percentage_7d_in_currency"
  let c30 := fieldOr0 coin "price_change_percentage_30d_in_currency"
  let volatilityProxy := |c24 - c7|
  let n24 := clamp c24 (-20) 20
  let n7 := clamp c7 (-30) 30
  let n30 := clamp c30 (-50) 50
  let raw := 0.45 * n7 + 0.35 * n24 + 0.20 * (n30 / 1.5)
  let penalty := clamp volatilityProxy 0 40 * 0.25
  let scaled := 50 + raw * 1.2 - penalty
  let score : ℤ := round (clamp scaled 0 100)
  let drivers : List String :=
    [ if c7 ≥ 5 then
        "Strong 7-day trend (" ++ formatPctNum c7 ++ ") is supporting momentum."
      else if c7 ≤ -5 then
        "Weak 7-day trend (" ++ formatPctNum c7 ++ ") is dragging momentum."
      else
        "7-day trend is mild (" ++ formatPctNum c7 ++ "), so momentum is less decisive.",
      if c24 ≥ 3 then
        "Recent 24h move is positive (" ++ formatPctNum c24 ++ ") and adds short-term strength."
      else if c24 ≤ -3 then
        "Recent 24h move is negative (" ++ formatPctNum c24 ++ ") and adds short-term pressure."
      else
        "24h move is small (" ++ formatPctNum c24 ++ "), so the short-term signal is muted.",
      if |c30| ≥ 15 then
        "30-day " ++ (if c30 ≥ 0 then "uptrend" else "downtrend") ++
          " (" ++ formatPctNum c30 ++ ") provides broader context."
      else
        "30-day change is modest (" ++ formatPctNum c30 ++ "), suggesting a steadier backdrop.",
      if volatilityProxy ≥ 15 then
        "Signals are choppy (24h vs 7d differs by ~" ++ toFixed1 volatilityProxy ++
          " pts), which reduces confidence."
      else
        "Signals are fairly consistent (24h vs 7d gap ~" ++ toFixed1 volatilityProxy ++ " pts).",
      if trendAligned c24 c7 then
        "Short-term and 7-day signals point in the same direction (better signal quality)."
      else
        "Short-term and 7-day signals conflict (treat as a lower-quality setup)." ]
  let whatWouldChange : List String :=
    (if c7 < 5 then ["A stronger 7-day trend would raise momentum."] else []) ++
    (if c24 < 3 then ["A clean positive 24h move would improve the short-term signal."] else []) ++
    (if volatilityProxy > 12 then
      ["Less choppiness between short-term and 7-day moves would raise confidence."] else []) ++
    (if c30 < 0 then ["A stabilizing 30-day trend would reduce longer-term drag."] else [])
  { score := score
    inputs := { c24 := c24, c7 := c7, c30 := c30, volatilityProxy := volatilityProxy }
    drivers := drivers
    whatWouldChange :=
      if whatWouldChange.isEmpty then
        ["Momentum is already supported by multiple aligned signals."]
      else whatWouldChange }

/-- The return value of `computeConfidence`. The source uses loose string
labels, kept here verbatim. -/
structure Confidence where
  label : String
  explanation : String
deriving DecidableEq, Repr

/-- `computeConfidence(breakdown)` of lib/momentum.js. -/
def computeConfidence (breakdown : MomentumBreakdown) : Confidence :=
  let score := breakdown.score
  let c24 := breakdown.inputs.c24
  let c7 := breakdown.inputs.c7
  let volatilityProxy := breakdown.inputs.volatilityProxy
  if score ≥ 70 ∧ trendAligned c24 c7 ∧ volatilityProxy ≤ 12 then
    { label := "High"
      explanation :=
        "Signals are strong and mostly aligned. This does not predict returns — it indicates cleaner momentum conditions." }
  else if score ≥ 55 ∧ (trendAligned c24 c7 ∨ volatilityProxy ≤ 18) then
    { label := "Medium"
      explanation :=
        "Momentum is present, but the signal quality is mixed (mild conflict or choppiness). Consider smaller position sizing or waiting for confirmation." }
  else
    { label := "Low"
      explanation :=
        "Momentum is weak or inconsistent. This is not a forecast — it suggests the current setup is noisier and harder to rely on." }

/-- The raw 24h input as `computeMomentumBreakdown` reads it. -/
def rawC24 (coin : Coin) : ℚ := fieldOr0 coin "price_change_percentage_24h_in_currency"

/-- The raw 7d input as `computeMomentumBreakdown` reads it. -/
def rawC7 (coin : Coin) : ℚ := fieldOr0 coin "price_change_percentage_7d_in_currency"

/-- The raw 30d input as `computeMomentumBreakdown` reads it. -/
def rawC30 (coin : Coin) : ℚ := fieldOr0 coin "price_change_percentage_30d_in_currency"

/-- A record carrying the three `_in_currency` percentage fields with
numeric values, as CoinGecko market rows do. -/
def mkCoin (c24 c7 c30 : ℚ) : Coin :=
  [("price_change_percentage_24h_in_currency", some c24),
   ("price_change_percentage_7d_in_currency", some c7),
   ("price_change_percentage_30d_in_currency", some c30)]

/-- Input reading as claim C7 words it: values taken from fields named
`price_change_percentage_24h`, `_7d`, `_30d` (no `_in_currency` suffix),
absent-or-null treated as 0. Stated only to be compared with what
`computeMomentumBreakdown` actually reads. -/
def inputsPerSpecFieldNames (coin : Coin) : MomentumInputs :=
  let c24 := fieldOr0 coin "price_change_percentage_24h"
  let c7 := fieldOr0 coin "price_change_percentage_7d"
  let c30 := fieldOr0 coin "price_change_percentage_30d"
  { c24 := c24, c7 := c7, c30 := c30, volatilityProxy := |c24 - c7| }

section Helpers

lemma string_append_assoc (a b c : String) : a ++ b ++ c = a ++ (b ++ c) := by
  rcases a with ⟨la⟩
  rcases b with ⟨lb⟩
  rcases c with ⟨lc⟩
  show String.mk (la ++ lb ++ lc) = String.mk (la ++ (lb ++ lc))
  rw [List.append_assoc]

lemma clamp_le_clamp {a b : ℚ} (mn mx : ℚ) (h : a ≤ b) :
    clamp a mn mx ≤ clamp b mn mx :=
  max_le_max le_rfl (min_le_min le_rfl h)

lemma clamp_lb (a mn mx : ℚ) : mn ≤ clamp a mn mx := le_max_left _ _

lemma clamp_ub {mn mx : ℚ} (a : ℚ) (h : mn ≤ mx) : clamp a mn mx ≤ mx :=
  max_le h (min_le_left _ _)

lemma clamp_of_mem {a mn mx : ℚ} (h1 : mn ≤ a) (h2 : a ≤ mx) : clamp a mn mx = a := by
  unfold clamp
  rw [min_eq_right h2, max_eq_right h1]

lemma clamp_sub_le {a b : ℚ} (mn mx : ℚ) (h : a ≤ b) :
    clamp b mn mx - clamp a mn mx ≤ b - a := by
  simp only [clamp, max_def, min_def]
  split_ifs <;> linarith

lemma round_mono_rat {a b : ℚ} (h : a ≤ b) : round a ≤ round b := by
  rw [round_eq, round_eq]
  exact Int.floor_mono (by linarith)

lemma breakdown_score_eq (coin : Coin) :
    (computeMomentumBreakdown coin).score =
      round (clamp
        (50 + (0.45 * clamp (rawC7 coin) (-30) 30 + 0.35 * clamp (rawC24 coin) (-20) 20 +
            0.20 * (clamp (rawC30 coin) (-50) 50 / 1.5)) * 1.2 -
          clamp (|rawC24 coin - rawC7 coin|) 0 40 * 0.25)
        0 100) := rfl

lemma breakdown_inputs_eq (coin : Coin) :
    (computeMomentumBreakdown coin).inputs =
      { c24 := rawC24 coin, c7 := rawC7 coin, c30 := rawC30 coin,
        volatilityProxy := |rawC24 coin - rawC7 coin| } := rfl

lemma rawC24_mkCoin (a b c : ℚ) : rawC24 (mkCoin a b c) = a := rfl

lemma rawC7_mkCoin (a b c : ℚ) : rawC7 (mkCoin a b c) = b := rfl

lemma rawC30_mkCoin (a b c : ℚ) : rawC30 (mkCoin a b c) = c := rfl

lemma breakdown_wwc_eq (coin : Coin) :
    (computeMomentumBreakdown coin).whatWouldChange =
      if ((if rawC7 coin < 5 then ["A stronger 7-day trend would raise momentum."] else []) ++
          (if rawC24 coin < 3 then
            ["A clean positive 24h move would improve the short-term signal."] else []) ++
          (if |rawC24 coin - rawC7 coin| > 12 then
            ["Less choppiness between short-term and 7-day moves would raise confidence."] else []) ++
          (if rawC30 coin < 0 then
            ["A stabilizing 30-day trend would reduce longer-term drag."] else [])).isEmpty then
        ["Momentum is already supported by multiple aligned signals."]
      else
        (if rawC7 coin < 5 then ["A stronger 7-day trend would raise momentum."] else []) ++
        (if rawC24 coin < 3 then
          ["A clean positive 24h move would improve the short-term signal."] else []) ++
        (if |rawC24 coin - rawC7 coin| > 12 then
          ["Less choppiness between short-term and 7-day moves would raise confidence."] else []) ++
        (if rawC30 coin < 0 then
          ["A stabilizing 30-day trend would reduce longer-term drag."] else []) := rfl

lemma computeConfidence_eq (b : MomentumBreakdown) :
    computeConfidence b =
      if b.score ≥ 70 ∧ trendAligned b.inputs.c24 b.inputs.c7 ∧
          b.inputs.volatilityProxy ≤ 12 then
        { label := "High"
          explanation :=
            "Signals are strong and mostly aligned. This does not predict returns — it indicates cleaner momentum conditions." }
      else if b.score ≥ 55 ∧ (trendAligned b.inputs.c24 b.inputs.c7 ∨
          b.inputs.volatilityProxy ≤ 18) then
        { label := "Medium"
          explanation :=
            "Momentum is present, but the signal quality is mixed (mild conflict or choppiness). Consider smaller position sizing or waiting for confirmation." }
      else
        { label := "Low"
          explanation :=
            "Momentum is weak or inconsistent. This is not a forecast — it suggests the current setup is noisier and harder to rely on." } := rfl

end Helpers

/-- C1: for every input record, the returned score equals
`round (clamp (50 + 1.2 * (0.45 * clamp c7 (-30) 30 + 0.35 * clamp c24 (-20) 20
+ 0.20 * (clamp c30 (-50) 50 / 1.5)) - 0.25 * clamp |c24 - c7| 0 40) 0 100)`
over the raw (unclamped) inputs, and the `inputs` snapshot reports the raw
inputs together with the raw (unclamped) volatility proxy `|c24 - c7|`. -/
theorem score_formula (coin : Coin) :
    (computeMomentumBreakdown coin).score =
      round (clamp
        (50 + 1.2 * (0.45 * clamp (rawC7 coin) (-30) 30 + 0.35 * clamp (rawC24 coin) (-20) 20 +
            0.20 * (clamp (rawC30 coin) (-50) 50 / 1.5)) -
          0.25 * clamp (|rawC24 coin - rawC7 coin|) 0 40)
        0 100) ∧
    (computeMomentumBreakdown coin).inputs =
      { c24 := rawC24 coin, c7 := rawC7 coin, c30 := rawC30 coin,
        volatilityProxy := |rawC24 coin - rawC7 coin| } := by
  refine ⟨?_, breakdown_inputs_eq coin⟩
  rw [breakdown_score_eq]
  congr 1
  ring_nf

/-- C3: for every input record, the returned score lies in `[0, 100]`
inclusive (it is an integer by construction: the `score` field has type ℤ,
being the result of `Math.round`). -/
theorem score_bounds (coin : Coin) :
    0 ≤ (computeMomentumBreakdown coin).score ∧
      (computeMomentumBreakdown coin).score ≤ 100 := by
  rw [breakdown_score_eq]
  constructor
  · have h := round_mono_rat (clamp_lb
      (50 + (0.45 * clamp (rawC7 coin) (-30) 30 + 0.35 * clamp (rawC24 coin) (-20) 20 +
          0.20 * (clamp (rawC30 coin) (-50) 50 / 1.5)) * 1.2 -
        clamp (|rawC24 coin - rawC7 coin|) 0 40 * 0.25) 0 100)
    simpa using h
  · have h := round_mono_rat (clamp_ub
      (50 + (0.45 * clamp (rawC7 coin) (-30) 30 + 0.35 * clamp (rawC24 coin) (-20) 20 +
          0.20 * (clamp (rawC30 coin) (-50) 50 / 1.5)) * 1.2 -
        clamp (|rawC24 coin - rawC7 coin|) 0 40 * 0.25)
      (show (0 : ℚ) ≤ 100 by norm_num))
    simpa using h

/-- C2: `computeConfidence` returns label `High` exactly on the first rule
`score >= 70 AND aligned AND volatilityProxy <= 12`, otherwise `Medium`
exactly on `score >= 55 AND (aligned OR volatilityProxy <= 18)`, otherwise
`Low`, with `aligned = (c24 >= 0 && c7 >= 0) || (c24 <= 0 && c7 <= 0)` over
the breakdown's inputs, rules tried in order; in particular it never
returns `High` when `score < 70`. -/
theorem confidence_rules (b : MomentumBreakdown) :
    ((computeConfidence b).label =
      if b.score ≥ 70 ∧
          ((b.inputs.c24 ≥ 0 ∧ b.inputs.c7 ≥ 0) ∨ (b.inputs.c24 ≤ 0 ∧ b.inputs.c7 ≤ 0)) ∧
          b.inputs.volatilityProxy ≤ 12 then "High"
      else if b.score ≥ 55 ∧
          (((b.inputs.c24 ≥ 0 ∧ b.inputs.c7 ≥ 0) ∨ (b.inputs.c24 ≤ 0 ∧ b.inputs.c7 ≤ 0)) ∨
            b.inputs.volatilityProxy ≤ 18) then "Medium"
      else "Low") ∧
    ((computeConfidence b).label = "High" → b.score ≥ 70) := by
  rw [computeConfidence_eq]
  constructor
  · rw [apply_ite Confidence.label, apply_ite Confidence.label]
  · split_ifs with h1 h2
    · exact fun _ => h1.1
    · intro hlab
      exact absurd hlab (by decide)
    · intro hlab
      exact absurd hlab (by decide)

/-- C2 witness: a concrete breakdown on which the first rule fires and the
`score >= 70` consequence of returning `High` is discharged. -/
theorem confidence_rules_witness :
    (computeConfidence ⟨80, ⟨1, 2, 3, 4⟩, [], []⟩).label = "High" ∧
      (80 : ℤ) ≥ 70 :=
  ⟨by decide, (confidence_rules ⟨80, ⟨1, 2, 3, 4⟩, [], []⟩).2 (by decide)⟩

/-- C9: `computeConfidence` depends only on the breakdown's `score`,
`inputs.c24`, `inputs.c7` and `inputs.volatilityProxy`: two breakdowns
agreeing on those four values get identical label and explanation, whatever
their `inputs.c30`, `drivers` and `whatWouldChange`. -/
theorem confidence_depends_only (b1 b2 : MomentumBreakdown)
    (hs : b1.score = b2.score) (h24 : b1.inputs.c24 = b2.inputs.c24)
    (h7 : b1.inputs.c7 = b2.inputs.c7)
    (hv : b1.inputs.volatilityProxy = b2.inputs.volatilityProxy) :
    computeConfidence b1 = computeConfidence b2 := by
  rw [computeConfidence_eq, computeConfidence_eq, hs, h24, h7, hv]

/-- C9 witness: two concrete breakdowns differing in `inputs.c30`,
`drivers` and `whatWouldChange` but agreeing on the four relevant values
receive the same confidence. -/
theorem confidence_depends_only_witness :
    computeConfidence ⟨60, ⟨1, 2, 100, 3⟩, ["a"], []⟩ =
      computeConfidence ⟨60, ⟨1, 2, -7, 3⟩, [], ["b"]⟩ :=
  confidence_depends_only ⟨60, ⟨1, 2, 100, 3⟩, ["a"], []⟩ ⟨60, ⟨1, 2, -7, 3⟩, [], ["b"]⟩
    rfl rfl rfl rfl

/-- C5: the drivers list has exactly 5 entries, in the fixed order
7-day / 24h / 30-day / choppiness / alignment, each produced by the stated
branching on the raw inputs (7-day thresholds at >= 5 / <= -5 / otherwise;
24h at >= 3 / <= -3 / otherwise; 30-day on `|c30| >= 15` with direction by
the sign of `c30`; choppiness on `volatilityProxy >= 15` reported to one
decimal; alignment on `(c24>=0 && c7>=0) || (c24<=0 && c7<=0)`). -/
theorem drivers_spec (coin : Coin) :
    (computeMomentumBreakdown coin).drivers.length = 5 ∧
    (computeMomentumBreakdown coin).drivers =
      [ if rawC7 coin ≥ 5 then
          "Strong 7-day trend (" ++ formatPctNum (rawC7 coin) ++ ") is supporting momentum."
        else if rawC7 coin ≤ -5 then
          "Weak 7-day trend (" ++ formatPctNum (rawC7 coin) ++ ") is dragging momentum."
        else
          "7-day trend is mild (" ++ formatPctNum (rawC7 coin) ++ "), so momentum is less decisive.",
        if rawC24 coin ≥ 3 then
          "Recent 24h move is positive (" ++ formatPctNum (rawC24 coin) ++ ") and adds short-term strength."
        else if rawC24 coin ≤ -3 then
          "Recent 24h move is negative (" ++ formatPctNum (rawC24 coin) ++ ") and adds short-term pressure."
        else
          "24h move is small (" ++ formatPctNum (rawC24 coin) ++ "), so the short-term signal is muted.",
        if |rawC30 coin| ≥ 15 then
          "30-day " ++ (if rawC30 coin ≥ 0 then "uptrend" else "downtrend") ++
            " (" ++ formatPctNum (rawC30 coin) ++ ") provides broader context."
        else
          "30-day change is modest (" ++ formatPctNum (rawC30 coin) ++ "), suggesting a steadier backdrop.",
        if |rawC24 coin - rawC7 coin| ≥ 15 then
          "Signals are choppy (24h vs 7d differs by ~" ++ toFixed1 (|rawC24 coin - rawC7 coin|) ++
            " pts), which reduces confidence."
        else
          "Signals are fairly consistent (24h vs 7d gap ~" ++ toFixed1 (|rawC24 coin - rawC7 coin|) ++ " pts).",
        if trendAligned (rawC24 coin) (rawC7 coin) then
          "Short-term and 7-day signals point in the same direction (better signal quality)."
        else
          "Short-term and 7-day signals conflict (treat as a lower-quality setup)." ] :=
  ⟨rfl, rfl⟩

/-- C6: `whatWouldChange` consists exactly of the entries whose guards hold
over the raw values, in the fixed order `c7 < 5`, `c24 < 3`,
`volatilityProxy > 12`, `c30 < 0`; when all four guards are false the list
is exactly the single fallback sentence. -/
theorem whatWouldChange_spec (coin : Coin) :
    (computeMomentumBreakdown coin).whatWouldChange =
      if rawC7 coin < 5 ∨ rawC24 coin < 3 ∨ |rawC24 coin - rawC7 coin| > 12 ∨
          rawC30 coin < 0 then
        (if rawC7 coin < 5 then ["A stronger 7-day trend would raise momentum."] else []) ++
        (if rawC24 coin < 3 then
          ["A clean positive 24h move would improve the short-term signal."] else []) ++
        (if |rawC24 coin - rawC7 coin| > 12 then
          ["Less choppiness between short-term and 7-day moves would raise confidence."] else []) ++
        (if rawC30 coin < 0 then
          ["A stabilizing 30-day trend would reduce longer-term drag."] else [])
      else ["Momentum is already supported by multiple aligned signals."] := by
  rw [breakdown_wwc_eq]
  by_cases h1 : rawC7 coin < 5 <;> by_cases h2 : rawC24 coin < 3 <;>
    by_cases h3 : |rawC24 coin - rawC7 coin| > 12 <;> by_cases h4 : rawC30 coin < 0 <;>
    simp [h1, h2, h3, h4]

/-- C10: whenever the raw `c24` or the raw `c7` is zero, the trend-alignment
condition holds regardless of the other value, so the fifth driver is always
the `same direction` sentence, and the `aligned` conjunct/disjunct inside
`computeConfidence` is satisfied, leaving the label determined by `score`
and `volatilityProxy` alone. -/
theorem zero_input_aligned :
    (∀ coin : Coin, rawC24 coin = 0 ∨ rawC7 coin = 0 →
      (computeMomentumBreakdown coin).drivers.getLast? =
        some "Short-term and 7-day signals point in the same direction (better signal quality).") ∧
    (∀ b : MomentumBreakdown, b.inputs.c24 = 0 ∨ b.inputs.c7 = 0 →
      (computeConfidence b).label =
        if b.score ≥ 70 ∧ b.inputs.volatilityProxy ≤ 12 then "High"
        else if b.score ≥ 55 then "Medium" else "Low") := by
  have align : ∀ x y : ℚ, x = 0 ∨ y = 0 → trendAligned x y := by
    intro x y h
    rcases h with h | h
    · subst h
      rcases le_total 0 y with hy | hy
      · exact Or.inl ⟨le_refl 0, hy⟩
      · exact Or.inr ⟨le_refl 0, hy⟩
    · subst h
      rcases le_total 0 x with hx | hx
      · exact Or.inl ⟨hx, le_refl 0⟩
      · exact Or.inr ⟨hx, le_refl 0⟩
  constructor
  · intro coin h
    have ha := align (rawC24 coin) (rawC7 coin) h
    rw [(drivers_spec coin).2]
    simp [ha]
  · intro b h
    have ha := align b.inputs.c24 b.inputs.c7 h
    rw [computeConfidence_eq]
    rw [apply_ite Confidence.label, apply_ite Confidence.label]
    simp only [ha, true_and, and_true, true_or, or_true]

/-- C10 witness: a concrete record with `c24 = 0` and a negative `c7`, and a
concrete breakdown with `c7 = 0`, on which both parts of the statement are
applied with their hypotheses discharged. -/
theorem zero_input_aligned_witness :
    (computeMomentumBreakdown (mkCoin 0 (-9) 4)).drivers.getLast? =
      some "Short-term and 7-day signals point in the same direction (better signal quality)." ∧
    (computeConfidence ⟨60, ⟨7, 0, 1, 2⟩, [], []⟩).label =
      if (60 : ℤ) ≥ 70 ∧ (2 : ℚ) ≤ 12 then "High"
      else if (60 : ℤ) ≥ 55 then "Medium" else "Low" :=
  ⟨zero_input_aligned.1 (mkCoin 0 (-9) 4) (Or.inl rfl),
   zero_input_aligned.2 ⟨60, ⟨7, 0, 1, 2⟩, [], []⟩ (Or.inr rfl)⟩

lemma breakdown_congr {coin1 coin2 : Coin} (h24 : rawC24 coin1 = rawC24 coin2)
    (h7 : rawC7 coin1 = rawC7 coin2) (h30 : rawC30 coin1 = rawC30 coin2) :
    computeMomentumBreakdown coin1 = computeMomentumBreakdown coin2 := by
  simp only [rawC24] at h24
  simp only [rawC7] at h7
  simp only [rawC30] at h30
  unfold computeMomentumBreakdown
  rw [h24, h7, h30]

lemma score_empty : (computeMomentumBreakdown []).score = 50 := by
  rw [breakdown_score_eq]
  have h24 : rawC24 [] = 0 := rfl
  have h7 : rawC7 [] = 0 := rfl
  have h30 : rawC30 [] = 0 := rfl
  rw [h24, h7, h30]
  norm_num [clamp, min_def, max_def]

lemma scaled_mono {c24 c30 c7 c7' : ℚ} (h1 : -30 ≤ c7) (h2 : c7' ≤ 30) (h : c7 ≤ c7') :
    50 + (0.45 * clamp c7 (-30) 30 + 0.35 * clamp c24 (-20) 20 +
        0.20 * (clamp c30 (-50) 50 / 1.5)) * 1.2 -
      clamp (|c24 - c7|) 0 40 * 0.25 ≤
    50 + (0.45 * clamp c7' (-30) 30 + 0.35 * clamp c24 (-20) 20 +
        0.20 * (clamp c30 (-50) 50 / 1.5)) * 1.2 -
      clamp (|c24 - c7'|) 0 40 * 0.25 := by
  rw [clamp_of_mem h1 (le_trans h h2), clamp_of_mem (le_trans h1 h) h2]
  have hd : clamp (|c24 - c7'|) 0 40 - clamp (|c24 - c7|) 0 40 ≤ c7' - c7 := by
    rcases le_total (|c24 - c7'|) (|c24 - c7|) with hle | hle
    · have hc := @clamp_le_clamp (|c24 - c7'|) (|c24 - c7|) 0 40 hle
      linarith
    · have h3 := @clamp_sub_le (|c24 - c7|) (|c24 - c7'|) 0 40 hle
      have h4 := abs_sub_abs_le_abs_sub (c24 - c7') (c24 - c7)
      have h5 : c24 - c7' - (c24 - c7) = -(c7' - c7) := by ring
      rw [h5, abs_neg, abs_of_nonneg (by linarith : (0 : ℚ) ≤ c7' - c7)] at h4
      linarith
  linarith

/-- C4: holding the 24h and 30-day inputs fixed, increasing the 7-day input
within `[-30, 30]` never decreases the score returned by
`computeMomentumBreakdown`, even though it can increase the volatility
penalty. -/
theorem score_mono_c7 (c24 c30 c7 c7' : ℚ)
    (h1 : -30 ≤ c7) (h2 : c7' ≤ 30) (h : c7 ≤ c7') :
    (computeMomentumBreakdown (mkCoin c24 c7 c30)).score ≤
      (computeMomentumBreakdown (mkCoin c24 c7' c30)).score := by
  rw [breakdown_score_eq, breakdown_score_eq, rawC24_mkCoin, rawC24_mkCoin,
    rawC7_mkCoin, rawC7_mkCoin, rawC30_mkCoin, rawC30_mkCoin]
  exact round_mono_rat (clamp_le_clamp 0 100 (scaled_mono h1 h2 h))

/-- C4 witness: the monotonicity theorem applied at a concrete pair of
inputs inside the clamped range. -/
theorem score_mono_c7_witness :
    (-30 : ℚ) ≤ -4 ∧ (25 : ℚ) ≤ 30 ∧ (-4 : ℚ) ≤ 25 ∧
      (computeMomentumBreakdown (mkCoin 2 (-4) 6)).score ≤
        (computeMomentumBreakdown (mkCoin 2 25 6)).score :=
  ⟨by norm_num, by norm_num, by norm_num,
    score_mono_c7 2 6 (-4) 25 (by norm_num) (by norm_num) (by norm_num)⟩

/-- C7 counterexample: `computeMomentumBreakdown` does not read the field
named `price_change_percentage_7d`. On a record whose only field is
`price_change_percentage_7d = 100`, the function returns `c7 = 0` (and
score 50, the all-absent output), whereas reading the claimed field names
would give `c7 = 100`. -/
theorem field_names_counterexample :
    (computeMomentumBreakdown [("price_change_percentage_7d", some 100)]).inputs.c7 = 0 ∧
    (inputsPerSpecFieldNames [("price_change_percentage_7d", some 100)]).c7 = 100 ∧
    (0 : ℚ) ≠ 100 ∧
    (computeMomentumBreakdown [("price_change_percentage_7d", some 100)]).score = 50 :=
  ⟨rfl, rfl, by norm_num,
    by rw [show computeMomentumBreakdown [("price_change_percentage_7d", some 100)] =
          computeMomentumBreakdown [] from breakdown_congr rfl rfl rfl, score_empty]⟩

/-- C7 amended: `computeMomentumBreakdown` reads its three percentage
inputs from the record fields named
`price_change_percentage_24h_in_currency`, `_7d_in_currency` and
`_30d_in_currency`; a field that is absent or null is treated as exactly 0,
so a record with null fields yields the same output as an empty record,
whose score is 50. -/
theorem field_names_amended :
    (∀ a b c : ℚ,
      (computeMomentumBreakdown (mkCoin a b c)).inputs.c24 = a ∧
      (computeMomentumBreakdown (mkCoin a b c)).inputs.c7 = b ∧
      (computeMomentumBreakdown (mkCoin a b c)).inputs.c30 = c) ∧
    computeMomentumBreakdown
        [("price_change_percentage_24h_in_currency", none),
         ("price_change_percentage_7d_in_currency", none),
         ("price_change_percentage_30d_in_currency", none)] =
      computeMomentumBreakdown [] ∧
    (computeMomentumBreakdown []).score = 50 :=
  ⟨fun _ _ _ => ⟨rfl, rfl, rfl⟩, breakdown_congr rfl rfl rfl, score_empty⟩

lemma string_empty_append (s : String) : "" ++ s = s := rfl

/-- C8: `formatPct` renders every numeric value with exactly two decimal
places and a sign prefix: a leading `+` when the value is positive, a
leading `-` when it is negative, and no sign when it is zero, followed by
the integer part, a dot, exactly two fractional digits, and a percent
sign. -/
theorem formatPct_two_decimals (q : ℚ) :
    ∃ ip fp : ℕ, fp < 100 ∧
      (String.mk [Nat.digitChar (fp / 10), Nat.digitChar (fp % 10)]).length = 2 ∧
      formatPctNum q =
        (if 0 < q then "+" else if q < 0 then "-" else "") ++
          (Nat.repr ip ++ "." ++
            String.mk [Nat.digitChar (fp / 10), Nat.digitChar (fp % 10)] ++ "%") := by
  refine ⟨(round (|q| * 100)).toNat / 100, (round (|q| * 100)).toNat % 100,
    Nat.mod_lt _ (by norm_num), rfl, ?_⟩
  unfold formatPctNum toFixed2
  rcases lt_trichotomy q 0 with hneg | h0 | hpos
  · have h1 : ¬ (0 < q) := by linarith
    simp only [if_neg h1, if_pos hneg]
    simp [string_append_assoc, string_empty_append]
  · subst h0
    simp only [if_neg (lt_irrefl (0 : ℚ))]
    simp [string_append_assoc, string_empty_append]
  · have h2 : ¬ (q < 0) := by linarith
    simp only [if_pos hpos, if_neg h2]
    simp [string_append_assoc, string_empty_append]

end CryptoDashboard
